import Mathlib

/-!
Shallow embedding of the `annemariet/tutorials` teaching notebooks
(`03_ML_and_dataviz.ipynb` and `HashingTrick.ipynb`) in Lean 4, together
with theorems settling the behavioural claims about the repository.

Python floats are modelled as exact rationals (`ℚ`), NumPy arrays as a
shape vector plus flat C-order data, and Python exceptions as an
`Except PyError` result.
-/

set_option autoImplicit false
set_option maxRecDepth 100000

namespace Tutorials

/-- Python exceptions that the notebook code can raise. -/
inductive PyError where
  | notImplementedError (msg : String)
  | valueError (msg : String)
  | otherError (msg : String)
  deriving Repr, DecidableEq

/-- Decidable equality of `Except` results, for concrete evaluations. -/
instance {ε α : Type} [DecidableEq ε] [DecidableEq α] : DecidableEq (Except ε α) := fun a b =>
  match a, b with
  | .error e, .error e' =>
      if h : e = e' then .isTrue (by rw [h]) else .isFalse (fun c => h (Except.error.inj c))
  | .ok x, .ok y =>
      if h : x = y then .isTrue (by rw [h]) else .isFalse (fun c => h (Except.ok.inj c))
  | .error _, .ok _ => .isFalse (fun c => Except.noConfusion c)
  | .ok _, .error _ => .isFalse (fun c => Except.noConfusion c)

/-- A NumPy `ndarray` with entries of type `α`: a shape vector together
with the flat data buffer in C (row-major) order. -/
structure NDArr (α : Type) where
  shape : List Nat
  data : List α
  deriving Repr, DecidableEq

namespace NDArr

/-- `arr.ndim` in NumPy: the number of axes. -/
def ndim {α : Type} (a : NDArr α) : Nat := a.shape.length

/-- `arr[i, j]` of a 2-axis array in C order: flat index `ncols * i + j`
with `ncols = shape[1]` (with a default for out-of-range access). -/
def item2 {α : Type} (d : α) (a : NDArr α) (i j : Nat) : α :=
  a.data.getD (a.shape.getD 1 0 * i + j) d

end NDArr

/-- `arr.reshape(shape)` on the flat buffer: the data is reinterpreted
under the new shape; NumPy raises `ValueError` when the total sizes
disagree. -/
def np_reshape {α : Type} (a : NDArr α) (s : List Nat) : Except PyError (NDArr α) :=
  if a.data.length = s.prod then Except.ok ⟨s, a.data⟩
  else Except.error (PyError.valueError "cannot reshape array")

/-- Split a flat buffer into `n` consecutive blocks of `k` elements:
block `i` is `l[i*k : (i+1)*k]`. -/
def chunksExact {α : Type} (k n : Nat) (l : List α) : List (List α) :=
  (List.range n).map (fun i => (l.drop (i * k)).take k)

/-- `np.flipud(arr)`: reverse the order of the blocks along the first
axis (row `i` of the result is row `s₀ - 1 - i` of the input). -/
def np_flipud {α : Type} (a : NDArr α) : NDArr α :=
  match a.shape with
  | [] => a
  | s0 :: rest =>
      let blk := rest.prod
      ⟨a.shape, (List.flatten ((List.range s0).map
        (fun i => (a.data.drop ((s0 - 1 - i) * blk)).take blk)))⟩

/-- Truncation toward zero, as the C cast underlying NumPy's
`astype` does for floats. -/
def truncInt (q : ℚ) : ℤ :=
  if 0 ≤ q then ⌊q⌋ else ⌈q⌉

/-- `astype(np.uint8)` on one entry: truncate toward zero and wrap
modulo 2^8. -/
def toU8 (q : ℚ) : ℤ := (truncInt q) % 256

/-- `arr.astype(np.uint8)` elementwise. -/
def np_astype_u8 (a : NDArr ℚ) : NDArr ℤ :=
  ⟨a.shape, a.data.map toU8⟩

/-- `np.squeeze(arr)`: drop all axes of extent 1. -/
def np_squeeze {α : Type} (a : NDArr α) : NDArr α :=
  ⟨a.shape.filter (fun s => s ≠ 1), a.data⟩

/-- Combine 4 consecutive little-endian bytes into one 32-bit value, as
`view(np.uint32)` does on a `uint8` buffer. -/
def u32OfBytes (c : List ℤ) : ℤ :=
  c.getD 0 0 + 256 * c.getD 1 0 + 65536 * c.getD 2 0 + 16777216 * c.getD 3 0

/-- `arr.view(np.uint32)` on a `uint8` array: the last axis is grouped
4 bytes at a time; NumPy raises when the last axis is not a multiple of
the item-size ratio. -/
def np_view_u32 (a : NDArr ℤ) : Except PyError (NDArr ℤ) :=
  match a.shape.getLast? with
  | none => Except.error (PyError.valueError "view on 0-d array")
  | some last =>
      if last % 4 = 0 then
        Except.ok ⟨a.shape.dropLast ++ [last / 4],
          (chunksExact 4 (a.data.length / 4) a.data).map u32OfBytes⟩
      else Except.error (PyError.valueError "last axis not divisible")

/-- Broadcasting `x[..., np.newaxis] * color` for a 4-vector `color`:
each scalar entry is expanded into the 4 products with the colour
channels, appending an axis of extent 4. -/
def expandColor (color : List ℚ) (a : NDArr ℚ) : NDArr ℚ :=
  ⟨a.shape ++ [color.length], a.data.flatMap (fun x => color.map (fun c => x * c))⟩

/-- Scalar multiplication `arr * q` elementwise. -/
def np_scale (q : ℚ) (a : NDArr ℚ) : NDArr ℚ :=
  ⟨a.shape, a.data.map (fun x => x * q)⟩

/-!
### The notebook's image helpers

```python
def im_colorize_rgba(arr, label):
  color = mpl.cm.tab10(label)
  if arr.ndim == 1:
    out_img = (arr[:, np.newaxis] * np.array(color)).reshape(28,28,4) * 255
  elif arr.ndim == 2:
    out_img = (arr[:, :, np.newaxis] * np.array(color)) * 255
  else:
    raise ValueError("Image format not handled (yet).")
  out_img = np.flipud(out_img)
  return np.squeeze(out_img.astype(np.uint8)).view(np.uint32)

def im_reshape_bw(arr):
  out_img = arr.reshape(28,28)*255
  out_img = np.flipud(out_img)
  return out_img
```

`mpl.cm.tab10` is a Matplotlib colormap returning an RGBA 4-tuple; it is
modelled as a parameter `tab10 : Nat → List ℚ`.
-/

def im_colorize_rgba (tab10 : Nat → List ℚ) (arr : NDArr ℚ) (label : Nat) :
    Except PyError (NDArr ℤ) :=
  let color := tab10 label
  (if arr.ndim = 1 then
      (np_reshape (expandColor color arr) [28, 28, 4]).map (np_scale 255)
    else if arr.ndim = 2 then
      Except.ok (np_scale 255 (expandColor color arr))
    else
      Except.error (PyError.valueError "Image format not handled (yet).")).bind
    (fun out_img => np_view_u32 (np_squeeze (np_astype_u8 (np_flipud out_img))))

def im_reshape_bw (arr : NDArr ℚ) : Except PyError (NDArr ℚ) := do
  let out_img := np_scale 255 (← np_reshape arr [28, 28])
  Except.ok (np_flipud out_img)

/-!
### `plot_image` (an exercise placeholder)

```python
def plot_image(img, reshape_size=None, cmap="binary", ax=None, title=None):
  raise NotImplementedError("TODO")
  return ax
```
-/

def plot_image {α β γ δ ε : Type} (img : α) (reshape_size : β) (cmap : γ)
    (ax : δ) (title : ε) : Except PyError δ :=
  Except.error (PyError.notImplementedError "TODO")

/-!
### `plot_digits_embedding`

```python
def plot_digits_embedding(X2d, y, title=None, remove_ticks=True):
  x_min, x_max = np.min(X2d, 0), np.max(X2d, 0)
  X = (X2d - x_min) / (x_max - x_min)
  ... plt.text(X[i, 0], X[i, 1], ...)
```

`X2d` is an n×2 matrix, modelled as a list of coordinate pairs; `np.min(·, 0)`
and `np.max(·, 0)` are the column-wise minimum and maximum (NumPy raises on an
empty array; the empty case gets a junk value here and is excluded by the
hypotheses of the theorems).
-/

def np_min_axis0 (l : List (ℚ × ℚ)) : ℚ × ℚ :=
  match l with
  | [] => (0, 0)
  | p :: t => t.foldl (fun m q => (min m.1 q.1, min m.2 q.2)) p

def np_max_axis0 (l : List (ℚ × ℚ)) : ℚ × ℚ :=
  match l with
  | [] => (0, 0)
  | p :: t => t.foldl (fun m q => (max m.1 q.1, max m.2 q.2)) p

/-- The coordinates `X = (X2d - x_min) / (x_max - x_min)` at which
`plot_digits_embedding` places its text labels. -/
def plot_digits_embedding_X (X2d : List (ℚ × ℚ)) : List (ℚ × ℚ) :=
  let x_min := np_min_axis0 X2d
  let x_max := np_max_axis0 X2d
  X2d.map (fun p => ((p.1 - x_min.1) / (x_max.1 - x_min.1),
                     (p.2 - x_min.2) / (x_max.2 - x_min.2)))

/-!
### The `%tensorflow_version` cell

```python
try:
    # %tensorflow_version only exists in Colab.
    %tensorflow_version 2.x
except Exception:
    pass
```

The magic's outcome is a parameter; the cell swallows any exception it raises.
-/

def tf_version_cell (magic : Except PyError Unit) : Except PyError Unit :=
  match magic with
  | Except.error _ => Except.ok ()
  | Except.ok _ => Except.ok ()

/-!
### The bokeh `ColumnDataSource` image lists

```python
images = [im_reshape_bw(xi) for xi in X_img],
images_rgba = [im_colorize_rgba(xi, yi) for xi, yi in zip(X_img, y)],
```

inside `plot_interactive_embedding`; an exception raised by either helper
propagates out of the comprehension (and the cell) unchanged.
-/

def interactive_images (X_img : List (NDArr ℚ)) : Except PyError (List (NDArr ℚ)) :=
  X_img.mapM im_reshape_bw

def interactive_images_rgba (tab10 : Nat → List ℚ) (X_img : List (NDArr ℚ))
    (y : List Nat) : Except PyError (List (NDArr ℤ)) :=
  (X_img.zip y).mapM (fun p => im_colorize_rgba tab10 p.1 p.2)

/-!
### Files touched by the notebook

```python
keras.utils.plot_model(model_fc, "my_mnist_model.png", show_shapes=True)
...
convmodel_file = "convnet.h5"
if os.path.exists(convmodel_file):
  model = keras.models.load_model(convmodel_file)
  trained = True
else:
  model = keras.models.Sequential([feature_extractor, classifier])
  trained = False
...
if not trained:
  model.compile(...)
  history = model.fit(...)
  model.save(convmodel_file)
```

The file system is modelled as the list of existing file names.
-/

structure FS where
  files : List String
  deriving Repr, DecidableEq

def convmodel_file : String := "convnet.h5"

/-- Where the CNN section's `model` came from. -/
inductive ConvModel where
  | loadedFromFile
  | freshlyBuilt
  deriving Repr, DecidableEq

/-- The cell guarded by `os.path.exists(convmodel_file)`: load the saved
model, or build a fresh untrained one. -/
def convnet_setup_cell (fs : FS) : ConvModel × Bool :=
  if convmodel_file ∈ fs.files then (ConvModel.loadedFromFile, true)
  else (ConvModel.freshlyBuilt, false)

/-- The `if not trained:` cell: train and `model.save(convmodel_file)`. -/
def convnet_train_cell (fs : FS) (trained : Bool) : FS :=
  if trained then fs else ⟨convmodel_file :: fs.files⟩

/-- `keras.utils.plot_model(model_fc, "my_mnist_model.png", show_shapes=True)`
writes the architecture diagram to disk. -/
def plot_model_cell (fs : FS) : FS := ⟨"my_mnist_model.png" :: fs.files⟩

/-- The CNN section run in cell order: setup (branching on the presence of
`convnet.h5`) followed by the training/saving cell. -/
def run_convnet_section (fs : FS) : ConvModel × Bool × FS :=
  let mt := convnet_setup_cell fs
  (mt.1, mt.2, convnet_train_cell fs mt.2)

/-!
### `sklearn.feature_extraction.FeatureHasher`

```python
from sklearn.feature_extraction import FeatureHasher
h = FeatureHasher(n_features=10, )
D = [{'dog': 1, 'cat':2, 'elephant':4},{'dog': 2, 'run': 5}]
f = h.transform(D)
f.toarray()
```

Third-party library, modelled from its documented semantics: each sample is a
dict; for each `(key, value)` pair the signed 32-bit MurmurHash3 `h` of the
key picks the bucket `abs(h) % n_features`, and (with the default
`alternate_sign=True`) the sign of `h` picks the sign of the added value. The
hash function is a parameter; the output shape does not depend on it.
`toarray()` of the resulting sparse matrix is one dense row of `n_features`
entries per sample.
-/

def feature_hasher_step (n_features : Nat) (hash : String → ℤ)
    (row : List ℚ) (kv : String × ℚ) : List ℚ :=
  let h := hash kv.1
  let idx := h.natAbs % n_features
  let v := if h < 0 then -kv.2 else kv.2
  row.set idx (row.getD idx 0 + v)

def feature_hasher_transform (n_features : Nat) (hash : String → ℤ)
    (D : List (List (String × ℚ))) : List (List ℚ) :=
  D.map (fun sample =>
    sample.foldl (feature_hasher_step n_features hash) (List.replicate n_features 0))

/-- The two-sample input `D` of the `HashingTrick` notebook. -/
def hashing_D : List (List (String × ℚ)) :=
  [[("dog", 1), ("cat", 2), ("elephant", 4)], [("dog", 2), ("run", 5)]]

/-!
### Delegation of the hard computations to libraries

Each projection / training cell of `03_ML_and_dataviz.ipynb` binds its result
to the verbatim output of one third-party library call:

```python
rp = random_projection.SparseRandomProjection(n_components=2, random_state=42)
X_projected = rp.fit_transform(X_vis)
pca = decomposition.PCA(n_components=2, svd_solver="auto")
X_pca = pca.fit_transform(X_vis)
clf = manifold.MDS(n_components=2, n_init=1, max_iter=100)
X_mds = clf.fit_transform(X[:3000])
tsne = manifold.TSNE(n_components=2, init='random', random_state=42)
X_tsne = tsne.fit_transform(X_vis)
um = umap.UMAP(n_neighbors=10, min_dist=0.1, metric="euclidean")
um.fit(X_vis)
X_umap = um.transform(X_vis)
history = model_fc.fit(X_train, y_train, epochs=20,
                    validation_data=(X_valid, y_valid))
f = h.transform(D)
f.toarray()
```

The library transformations themselves are left fully abstract: the structure
`MLLib` carries them as arbitrary functions, and the cell embeddings below are
exactly the notebook's dataflow around them.
-/

/-- A matrix of Python floats. -/
def Mat : Type := List (List ℚ)

structure MLLib (UMapModel SparseM History : Type) where
  srp_fit_transform : Mat → Mat
  pca_fit_transform : Mat → Mat
  mds_fit_transform : Mat → Mat
  tsne_fit_transform : Mat → Mat
  umap_fit : Mat → UMapModel
  umap_transform : UMapModel → Mat → Mat
  model_fc_fit : Mat → List Nat → Nat → Mat → List Nat → History
  hasher_transform : List (List (String × ℚ)) → SparseM
  toarray : SparseM → Mat

section Cells

variable {UMapModel SparseM History : Type}

def cell_X_projected (lib : MLLib UMapModel SparseM History) (X_vis : Mat) : Mat :=
  lib.srp_fit_transform X_vis

def cell_X_pca (lib : MLLib UMapModel SparseM History) (X_vis : Mat) : Mat :=
  lib.pca_fit_transform X_vis

def cell_X_mds (lib : MLLib UMapModel SparseM History) (X : Mat) : Mat :=
  lib.mds_fit_transform (X.take 3000)

def cell_X_tsne (lib : MLLib UMapModel SparseM History) (X_vis : Mat) : Mat :=
  lib.tsne_fit_transform X_vis

def cell_X_umap (lib : MLLib UMapModel SparseM History) (X_vis : Mat) : Mat :=
  lib.umap_transform (lib.umap_fit X_vis) X_vis

def cell_history (lib : MLLib UMapModel SparseM History)
    (X_train : Mat) (y_train : List Nat) (X_valid : Mat) (y_valid : List Nat) : History :=
  lib.model_fc_fit X_train y_train 20 X_valid y_valid

def cell_f_toarray (lib : MLLib UMapModel SparseM History) : Mat :=
  lib.toarray (lib.hasher_transform hashing_D)

end Cells

/-- A concrete stand-in for one RGBA colour of `mpl.cm.tab10`, used to
instantiate concrete evaluations (the notebook's claims never depend on the
actual colour values, only on an RGBA tuple having 4 channels). -/
def tab10c : Nat → List ℚ := fun _ => [1/2, 1/2, 1/2, 1]

/-- The implementation-independent input-output contract of `im_reshape_bw`
on 784-element arrays, written directly from the mathematical description:
the 28×28 reshape of the input, scaled by 255 and vertically flipped. -/
def im_reshape_bw_contract (arr : List ℚ) : NDArr ℚ :=
  ⟨[28, 28], (List.range 784).map
    (fun idx => 255 * arr.getD (28 * (27 - idx / 28) + idx % 28) 0)⟩

/-! ### List indexing helper lemmas -/

lemma getD_map_range {α : Type} (d : α) (f : Nat → α) {n i : Nat} (h : i < n) :
    ((List.range n).map f).getD i d = f i := by
  simp [List.getD_eq_getElem?_getD, List.getElem?_map, List.getElem?_range h]

lemma getD_drop_take {α : Type} (d : α) (l : List α) (a k j : Nat) (hj : j < k) :
    ((l.drop a).take k).getD j d = l.getD (a + j) d := by
  simp [List.getD_eq_getElem?_getD, List.getElem?_take_of_lt hj, List.getElem?_drop]

lemma length_drop_take {α : Type} (l : List α) (a k : Nat) (h : a + k ≤ l.length) :
    ((l.drop a).take k).length = k := by
  simp only [List.length_take, List.length_drop]
  omega

lemma getD_flatten_map_range {α : Type} (d : α) (k : Nat) :
    ∀ (r : Nat) (g : Nat → List α), (∀ i, i < r → (g i).length = k) →
      ∀ i j, i < r → j < k →
      (List.flatten ((List.range r).map g)).getD (k * i + j) d = (g i).getD j d := by
  intro r
  induction r with
  | zero => intro g _ i j hi _; omega
  | succ r ih =>
    intro g hg i j hi hj
    rw [List.range_succ_eq_map, List.map_cons, List.flatten_cons]
    cases i with
    | zero =>
      rw [Nat.mul_zero, Nat.zero_add]
      exact List.getD_append _ _ _ _ (by rw [hg 0 (Nat.succ_pos r)]; exact hj)
    | succ i =>
      have hlen : (g 0).length = k := hg 0 (Nat.succ_pos r)
      have hidx : k * (i + 1) + j = (g 0).length + (k * i + j) := by
        rw [hlen]; ring
      rw [hidx, List.getD_append_right _ _ _ _ (Nat.le_add_right _ _),
        Nat.add_sub_cancel_left, List.map_map]
      exact ih (g ∘ Nat.succ) (fun i' hi' => hg (i' + 1) (by omega)) i j (by omega) hj

lemma length_flatten_map_range {α : Type} (k r : Nat) (g : Nat → List α)
    (hg : ∀ i, i < r → (g i).length = k) :
    (List.flatten ((List.range r).map g)).length = r * k := by
  rw [List.length_flatten, List.map_map]
  have hcongr : (List.range r).map (List.length ∘ g) = (List.range r).map (fun _ => k) :=
    List.map_congr_left (fun i hi => hg i (List.mem_range.mp hi))
  rw [hcongr, List.map_const', List.length_range, List.sum_replicate, smul_eq_mul]

lemma getD_mem_or {α : Type} (l : List α) (i : Nat) (d : α) :
    l.getD i d ∈ l ∨ l.getD i d = d := by
  by_cases h : i < l.length
  · left
    rw [List.getD_eq_getElem?_getD, List.getElem?_eq_getElem h]
    exact List.getElem_mem h
  · right
    rw [List.getD_eq_getElem?_getD, List.getElem?_eq_none (by omega)]
    rfl

/-! ### Behaviour of `im_reshape_bw` on 784-element inputs -/

lemma getD_map_mul255 (arr : List ℚ) (m : Nat) :
    (arr.map (fun x => x * 255)).getD m 0 = 255 * arr.getD m 0 := by
  rw [List.getD_eq_getElem?_getD, List.getD_eq_getElem?_getD, List.getElem?_map]
  cases arr[m]? with
  | none => simp
  | some a => simp [mul_comm]

lemma im_reshape_bw_ok_getD (arr : List ℚ) (h : arr.length = 784) :
    ∃ out : NDArr ℚ, im_reshape_bw ⟨[784], arr⟩ = Except.ok out ∧
      out.shape = [28, 28] ∧ out.data.length = 784 ∧
      ∀ i j, i < 28 → j < 28 →
        out.data.getD (28 * i + j) 0 = 255 * arr.getD (28 * (27 - i) + j) 0 := by
  have hprod : arr.length = List.prod [28, 28] := by rw [h]; rfl
  have hre : np_reshape ⟨[784], arr⟩ [28, 28] = Except.ok ⟨[28, 28], arr⟩ := by
    unfold np_reshape
    rw [if_pos hprod]
  have hbind : im_reshape_bw ⟨[784], arr⟩ = (np_reshape ⟨[784], arr⟩ [28, 28]).bind
      (fun r => Except.ok (np_flipud (np_scale 255 r))) := rfl
  have heq : im_reshape_bw ⟨[784], arr⟩ =
      Except.ok ⟨[28, 28], List.flatten ((List.range 28).map
        (fun i => (((arr.map (fun x => x * 255)).drop ((28 - 1 - i) * 28)).take 28)))⟩ := by
    rw [hbind, hre]
    rfl
  have hchunk : ∀ i', i' < 28 →
      (((arr.map (fun x => x * 255)).drop ((28 - 1 - i') * 28)).take 28).length = 28 := by
    intro i' hi'
    refine length_drop_take _ _ _ ?_
    rw [List.length_map, h]
    omega
  refine ⟨_, heq, rfl, ?_, ?_⟩
  · exact length_flatten_map_range 28 28 _ hchunk
  · intro i j hi hj
    rw [show ((⟨[28, 28], List.flatten ((List.range 28).map
        (fun i => (((arr.map (fun x => x * 255)).drop ((28 - 1 - i) * 28)).take 28)))⟩ :
          NDArr ℚ)).data = List.flatten ((List.range 28).map
        (fun i => (((arr.map (fun x => x * 255)).drop ((28 - 1 - i) * 28)).take 28))) from rfl,
      getD_flatten_map_range 0 28 28 _ hchunk i j hi hj,
      getD_drop_take _ _ _ _ _ hj, getD_map_mul255]
    congr 2
    omega

lemma im_reshape_bw_eq_contract (arr : List ℚ) (h : arr.length = 784) :
    im_reshape_bw ⟨[784], arr⟩ = Except.ok (im_reshape_bw_contract arr) := by
  obtain ⟨out, hout, hshape, hlen, hget⟩ := im_reshape_bw_ok_getD arr h
  rw [hout]
  congr 1
  cases out with
  | mk s d =>
    simp only at hshape hlen hget
    rw [im_reshape_bw_contract, NDArr.mk.injEq]
    refine ⟨hshape, ?_⟩
    refine List.ext_getElem (by rw [hlen, List.length_map, List.length_range]) ?_
    intro n h₁ h₂
    have hn : n < 784 := by rw [hlen] at h₁; exact h₁
    have hd : d[n] = d.getD n 0 := by
      rw [List.getD_eq_getElem?_getD, List.getElem?_eq_getElem h₁]
      rfl
    have hmapn : (((List.range 784).map
        (fun idx => 255 * arr.getD (28 * (27 - idx / 28) + idx % 28) 0)))[n] =
        255 * arr.getD (28 * (27 - n / 28) + n % 28) 0 := by
      have := getD_map_range (0 : ℚ)
        (fun idx => 255 * arr.getD (28 * (27 - idx / 28) + idx % 28) 0) hn
      rw [List.getD_eq_getElem?_getD, List.getElem?_eq_getElem h₂] at this
      exact this
    rw [hd, hmapn]
    have hsplit : 28 * (n / 28) + n % 28 = n := Nat.div_add_mod n 28
    have := hget (n / 28) (n % 28) (by omega) (by omega)
    rw [hsplit] at this
    exact this

/-! ### Column-wise minima and maxima of `plot_digits_embedding` -/

lemma foldl_min_le_init (t : List ℚ) (a : ℚ) : t.foldl min a ≤ a := by
  induction t generalizing a with
  | nil => exact le_refl a
  | cons x t ih => exact le_trans (ih (min a x)) (min_le_left a x)

lemma foldl_min_le_mem (t : List ℚ) (a x : ℚ) (hx : x ∈ t) : t.foldl min a ≤ x := by
  induction t generalizing a with
  | nil => cases hx
  | cons y t ih =>
    rcases List.mem_cons.mp hx with h | h
    · subst h
      exact le_trans (foldl_min_le_init t (min a x)) (min_le_right a x)
    · exact ih (min a y) h

lemma init_le_foldl_max (t : List ℚ) (a : ℚ) : a ≤ t.foldl max a := by
  induction t generalizing a with
  | nil => exact le_refl a
  | cons x t ih => exact le_trans (le_max_left a x) (ih (max a x))

lemma mem_le_foldl_max (t : List ℚ) (a x : ℚ) (hx : x ∈ t) : x ≤ t.foldl max a := by
  induction t generalizing a with
  | nil => cases hx
  | cons y t ih =>
    rcases List.mem_cons.mp hx with h | h
    · subst h
      exact le_trans (le_max_right a x) (init_le_foldl_max t (max a x))
    · exact ih (max a y) h

lemma np_min_axis0_cons_fst (p : ℚ × ℚ) (t : List (ℚ × ℚ)) :
    (np_min_axis0 (p :: t)).1 = (t.map Prod.fst).foldl min p.1 := by
  show (t.foldl (fun m q => (min m.1 q.1, min m.2 q.2)) p).1 =
    (t.map Prod.fst).foldl min p.1
  induction t generalizing p with
  | nil => rfl
  | cons x t ih => exact ih (min p.1 x.1, min p.2 x.2)

lemma np_min_axis0_cons_snd (p : ℚ × ℚ) (t : List (ℚ × ℚ)) :
    (np_min_axis0 (p :: t)).2 = (t.map Prod.snd).foldl min p.2 := by
  show (t.foldl (fun m q => (min m.1 q.1, min m.2 q.2)) p).2 =
    (t.map Prod.snd).foldl min p.2
  induction t generalizing p with
  | nil => rfl
  | cons x t ih => exact ih (min p.1 x.1, min p.2 x.2)

lemma np_max_axis0_cons_fst (p : ℚ × ℚ) (t : List (ℚ × ℚ)) :
    (np_max_axis0 (p :: t)).1 = (t.map Prod.fst).foldl max p.1 := by
  show (t.foldl (fun m q => (max m.1 q.1, max m.2 q.2)) p).1 =
    (t.map Prod.fst).foldl max p.1
  induction t generalizing p with
  | nil => rfl
  | cons x t ih => exact ih (max p.1 x.1, max p.2 x.2)

lemma np_max_axis0_cons_snd (p : ℚ × ℚ) (t : List (ℚ × ℚ)) :
    (np_max_axis0 (p :: t)).2 = (t.map Prod.snd).foldl max p.2 := by
  show (t.foldl (fun m q => (max m.1 q.1, max m.2 q.2)) p).2 =
    (t.map Prod.snd).foldl max p.2
  induction t generalizing p with
  | nil => rfl
  | cons x t ih => exact ih (max p.1 x.1, max p.2 x.2)

lemma np_min_axis0_fst_le (X2d : List (ℚ × ℚ)) (q : ℚ × ℚ) (hq : q ∈ X2d) :
    (np_min_axis0 X2d).1 ≤ q.1 := by
  cases X2d with
  | nil => cases hq
  | cons p t =>
    rw [np_min_axis0_cons_fst]
    rcases List.mem_cons.mp hq with h | h
    · subst h
      exact foldl_min_le_init _ _
    · exact foldl_min_le_mem _ _ _ (List.mem_map_of_mem Prod.fst h)

lemma np_min_axis0_snd_le (X2d : List (ℚ × ℚ)) (q : ℚ × ℚ) (hq : q ∈ X2d) :
    (np_min_axis0 X2d).2 ≤ q.2 := by
  cases X2d with
  | nil => cases hq
  | cons p t =>
    rw [np_min_axis0_cons_snd]
    rcases List.mem_cons.mp hq with h | h
    · subst h
      exact foldl_min_le_init _ _
    · exact foldl_min_le_mem _ _ _ (List.mem_map_of_mem Prod.snd h)

lemma le_np_max_axis0_fst (X2d : List (ℚ × ℚ)) (q : ℚ × ℚ) (hq : q ∈ X2d) :
    q.1 ≤ (np_max_axis0 X2d).1 := by
  cases X2d with
  | nil => cases hq
  | cons p t =>
    rw [np_max_axis0_cons_fst]
    rcases List.mem_cons.mp hq with h | h
    · subst h
      exact init_le_foldl_max _ _
    · exact mem_le_foldl_max _ _ _ (List.mem_map_of_mem Prod.fst h)

lemma le_np_max_axis0_snd (X2d : List (ℚ × ℚ)) (q : ℚ × ℚ) (hq : q ∈ X2d) :
    q.2 ≤ (np_max_axis0 X2d).2 := by
  cases X2d with
  | nil => cases hq
  | cons p t =>
    rw [np_max_axis0_cons_snd]
    rcases List.mem_cons.mp hq with h | h
    · subst h
      exact init_le_foldl_max _ _
    · exact mem_le_foldl_max _ _ _ (List.mem_map_of_mem Prod.snd h)

/-! ### Behaviour of `im_colorize_rgba` -/

lemma toU8_bounds (q : ℚ) : 0 ≤ toU8 q ∧ toU8 q < 256 :=
  ⟨Int.emod_nonneg _ (by norm_num), Int.emod_lt_of_pos _ (by norm_num)⟩

lemma u32OfBytes_bounds (c : List ℤ) (hc : ∀ b ∈ c, 0 ≤ b ∧ b < 256) :
    0 ≤ u32OfBytes c ∧ u32OfBytes c < 4294967296 := by
  have hb : ∀ i, 0 ≤ c.getD i 0 ∧ c.getD i 0 < 256 := by
    intro i
    rcases getD_mem_or c i 0 with h | h
    · exact hc _ h
    · rw [h]
      norm_num
  obtain ⟨h00, h01⟩ := hb 0
  obtain ⟨h10, h11⟩ := hb 1
  obtain ⟨h20, h21⟩ := hb 2
  obtain ⟨h30, h31⟩ := hb 3
  rw [u32OfBytes]
  constructor <;> linarith

lemma chunksExact_map_u32_bounds (n : Nat) (bytes : List ℤ)
    (hb : ∀ b ∈ bytes, 0 ≤ b ∧ b < 256) :
    ∀ v ∈ (chunksExact 4 n bytes).map u32OfBytes, 0 ≤ v ∧ v < 4294967296 := by
  intro v hv
  rw [List.mem_map] at hv
  obtain ⟨c, hc, rfl⟩ := hv
  rw [chunksExact, List.mem_map] at hc
  obtain ⟨i, _, rfl⟩ := hc
  exact u32OfBytes_bounds _
    (fun b hbc => hb b (List.drop_subset _ _ (List.take_subset _ _ hbc)))

lemma expandColor_length (color : List ℚ) (a : NDArr ℚ) (hc : color.length = 4) :
    (expandColor color a).data.length = a.data.length * 4 := by
  rw [expandColor, List.length_flatMap]
  have : a.data.map (List.length ∘ fun x => color.map (fun c => x * c)) =
      a.data.map (fun _ => 4) := by
    refine List.map_congr_left (fun x _ => ?_)
    show (color.map (fun c => x * c)).length = 4
    rw [List.length_map, hc]
  rw [this, List.map_const', List.sum_replicate, smul_eq_mul, Nat.mul_comm]

/-- The `(arr.ndim == 1)`-branch successfully produces a 28×28×1 array of
32-bit values when the flat input has exactly 784 entries. -/
lemma im_colorize_rgba_1d_784 (tab10 : Nat → List ℚ) (label : Nat) (arr : NDArr ℚ)
    (hc : (tab10 label).length = 4) (hshape : arr.shape = [784])
    (hdata : arr.data.length = 784) :
    ∃ out : NDArr ℤ, im_colorize_rgba tab10 arr label = Except.ok out ∧
      out.shape = [28, 28, 1] ∧ out.data.length = 784 ∧
      ∀ v ∈ out.data, 0 ≤ v ∧ v < 4294967296 := by
  have hndim : arr.ndim = 1 := by rw [NDArr.ndim, hshape]; rfl
  have hbind : im_colorize_rgba tab10 arr label =
      (if arr.ndim = 1 then
        (np_reshape (expandColor (tab10 label) arr) [28, 28, 4]).map (np_scale 255)
      else if arr.ndim = 2 then
        Except.ok (np_scale 255 (expandColor (tab10 label) arr))
      else
        Except.error (PyError.valueError "Image format not handled (yet).")).bind
      (fun out_img => np_view_u32 (np_squeeze (np_astype_u8 (np_flipud out_img)))) := rfl
  have hec : (expandColor (tab10 label) arr).data.length = 3136 := by
    rw [expandColor_length _ _ hc, hdata]
  have hre : np_reshape (expandColor (tab10 label) arr) [28, 28, 4] =
      Except.ok ⟨[28, 28, 4], (expandColor (tab10 label) arr).data⟩ := by
    rw [np_reshape, if_pos (by rw [hec]; rfl)]
  -- the scaled data inside the reshaped array
  set sc : List ℚ := (expandColor (tab10 label) arr).data.map (fun x => x * 255) with hsc
  have hsclen : sc.length = 3136 := by rw [hsc, List.length_map, hec]
  -- flipping along the first axis of the 28×28×4 array
  have hchunk : ∀ i', i' < 28 → ((sc.drop ((28 - 1 - i') * 112)).take 112).length = 112 := by
    intro i' hi'
    refine length_drop_take _ _ _ ?_
    rw [hsclen]
    omega
  set fl : List ℚ := List.flatten ((List.range 28).map
    (fun i => (sc.drop ((28 - 1 - i) * 112)).take 112)) with hfl
  have hfllen : fl.length = 3136 := length_flatten_map_range 112 28 _ hchunk
  have hflip : np_flipud ⟨[28, 28, 4], sc⟩ = ⟨[28, 28, 4], fl⟩ := rfl
  have hbytes : ∀ b ∈ fl.map toU8, 0 ≤ b ∧ b < 256 := by
    intro b hbm
    rw [List.mem_map] at hbm
    obtain ⟨q, _, rfl⟩ := hbm
    exact toU8_bounds q
  have hbyteslen : (fl.map toU8).length = 3136 := by rw [List.length_map, hfllen]
  refine ⟨⟨[28, 28, 1], (chunksExact 4 ((fl.map toU8).length / 4) (fl.map toU8)).map u32OfBytes⟩,
    ?_, rfl, ?_, ?_⟩
  · rw [hbind, if_pos hndim, hre]
    show np_view_u32 (np_squeeze (np_astype_u8 (np_flipud (np_scale 255
      ⟨[28, 28, 4], (expandColor (tab10 label) arr).data⟩)))) = _
    rw [show np_scale 255 ⟨[28, 28, 4], (expandColor (tab10 label) arr).data⟩ =
      (⟨[28, 28, 4], sc⟩ : NDArr ℚ) from rfl, hflip]
    rfl
  · show ((chunksExact 4 ((fl.map toU8).length / 4) (fl.map toU8)).map u32OfBytes).length = 784
    rw [List.length_map, chunksExact, List.length_map, List.length_range, hbyteslen]
  · show ∀ v ∈ (chunksExact 4 ((fl.map toU8).length / 4) (fl.map toU8)).map u32OfBytes,
      0 ≤ v ∧ v < 4294967296
    exact chunksExact_map_u32_bounds _ _ hbytes

/-! ## Claim theorems -/

/-- C2: `plot_image` raises `NotImplementedError` before returning any value,
for every combination of its arguments `(img, reshape_size, cmap, ax, title)`. -/
theorem c2_plot_image_always_raises {α β γ δ ε : Type} (img : α) (reshape_size : β)
    (cmap : γ) (ax : δ) (title : ε) :
    plot_image img reshape_size cmap ax title =
      Except.error (PyError.notImplementedError "TODO") := rfl

/-- C10: for every 784-element array `arr`, `im_reshape_bw` returns a 28×28
array that is the vertical flip of the 28×28 reshape of `arr` scaled by 255:
the entry at row `i`, column `j` equals `255 * arr[28 * (27 - i) + j]`. -/
theorem c10_im_reshape_bw_flip_scale (arr : List ℚ) (h : arr.length = 784)
    (i j : Nat) (hi : i < 28) (hj : j < 28) :
    ∃ out : NDArr ℚ, im_reshape_bw ⟨[784], arr⟩ = Except.ok out ∧
      out.shape = [28, 28] ∧
      NDArr.item2 0 out i j = 255 * arr.getD (28 * (27 - i) + j) 0 := by
  obtain ⟨out, hout, hshape, _, hget⟩ := im_reshape_bw_ok_getD arr h
  refine ⟨out, hout, hshape, ?_⟩
  rw [NDArr.item2, hshape]
  exact hget i j hi hj

theorem c10_im_reshape_bw_flip_scale_witness :
    (List.replicate 784 (1 : ℚ)).length = 784 ∧ (3 : Nat) < 28 ∧ (5 : Nat) < 28 ∧
    ∃ out : NDArr ℚ, im_reshape_bw ⟨[784], List.replicate 784 (1 : ℚ)⟩ = Except.ok out ∧
      out.shape = [28, 28] ∧
      NDArr.item2 0 out 3 5 = 255 * (List.replicate 784 (1 : ℚ)).getD (28 * (27 - 3) + 5) 0 :=
  ⟨by rw [List.length_replicate], by norm_num, by norm_num,
    c10_im_reshape_bw_flip_scale (List.replicate 784 1) (by rw [List.length_replicate]) 3 5
      (by norm_num) (by norm_num)⟩

/-- C5 counterexample: `im_reshape_bw` is a repository-defined function whose
output is fixed by its argument alone — at the concrete all-ones 784-element
input it evaluates to the definite constant 28×28 all-255 array, so a
deterministic, implementation-independent input-output contract does exist. -/
theorem c5_counterexample :
    im_reshape_bw ⟨[784], List.replicate 784 (1 : ℚ)⟩ =
      Except.ok ⟨[28, 28], List.replicate 784 (255 : ℚ)⟩ := by
  rw [im_reshape_bw_eq_contract (List.replicate 784 1) (by rw [List.length_replicate])]
  congr 1
  rw [im_reshape_bw_contract, NDArr.mk.injEq]
  refine ⟨rfl, ?_⟩
  have hconst : (List.range 784).map
      (fun idx => 255 * (List.replicate 784 (1 : ℚ)).getD (28 * (27 - idx / 28) + idx % 28) 0) =
      (List.range 784).map (fun _ => (255 : ℚ)) := by
    refine List.map_congr_left (fun idx _ => ?_)
    rw [List.getD_eq_getElem?_getD, List.getElem?_replicate, if_pos (by omega)]
    norm_num
  rw [hconst, List.map_const', List.length_range]

/-- C5 amended: while the notebook's projection outputs do depend on library
internals, parameters and downloaded data, the plotting helpers are pure
deterministic maps; in particular `im_reshape_bw` satisfies the
implementation-independent contract `im_reshape_bw_contract` (255-scaled,
vertically flipped 28×28 reshape) on every 784-element input. -/
theorem c5_im_reshape_bw_deterministic_contract (arr : List ℚ) (h : arr.length = 784) :
    im_reshape_bw ⟨[784], arr⟩ = Except.ok (im_reshape_bw_contract arr) :=
  im_reshape_bw_eq_contract arr h

theorem c5_im_reshape_bw_deterministic_contract_witness :
    (List.replicate 784 (1 : ℚ)).length = 784 ∧
    im_reshape_bw ⟨[784], List.replicate 784 (1 : ℚ)⟩ =
      Except.ok (im_reshape_bw_contract (List.replicate 784 (1 : ℚ))) :=
  ⟨by rw [List.length_replicate], c5_im_reshape_bw_deterministic_contract (List.replicate 784 1) (by rw [List.length_replicate])⟩

/-- C8: whenever each of the two columns of `X2d` has its maximum strictly
above its minimum, every coordinate `(X2d - x_min) / (x_max - x_min)` plotted
by `plot_digits_embedding` lies in the closed unit square `[0,1] × [0,1]`;
and when a column is constant the rescaling's denominator for that column is
zero (a division by zero in NumPy). -/
theorem c8_plot_digits_embedding_unit_square (X2d : List (ℚ × ℚ)) :
    ((np_min_axis0 X2d).1 < (np_max_axis0 X2d).1 →
      (np_min_axis0 X2d).2 < (np_max_axis0 X2d).2 →
      ∀ p ∈ plot_digits_embedding_X X2d,
        0 ≤ p.1 ∧ p.1 ≤ 1 ∧ 0 ≤ p.2 ∧ p.2 ≤ 1) ∧
    ((np_min_axis0 X2d).1 = (np_max_axis0 X2d).1 →
      (np_max_axis0 X2d).1 - (np_min_axis0 X2d).1 = 0) := by
  constructor
  · intro h1 h2 p hp
    rw [plot_digits_embedding_X, List.mem_map] at hp
    obtain ⟨q, hq, rfl⟩ := hp
    have hd1 : (0 : ℚ) < (np_max_axis0 X2d).1 - (np_min_axis0 X2d).1 := sub_pos.mpr h1
    have hd2 : (0 : ℚ) < (np_max_axis0 X2d).2 - (np_min_axis0 X2d).2 := sub_pos.mpr h2
    refine ⟨div_nonneg (sub_nonneg.mpr (np_min_axis0_fst_le X2d q hq)) hd1.le,
      (div_le_one hd1).mpr (sub_le_sub_right (le_np_max_axis0_fst X2d q hq) _),
      div_nonneg (sub_nonneg.mpr (np_min_axis0_snd_le X2d q hq)) hd2.le,
      (div_le_one hd2).mpr (sub_le_sub_right (le_np_max_axis0_snd X2d q hq) _)⟩
  · intro h
    rw [← h, sub_self]

theorem c8_plot_digits_embedding_unit_square_witness :
    ((np_min_axis0 [((0 : ℚ), (0 : ℚ)), (2, 1)]).1 <
        (np_max_axis0 [((0 : ℚ), (0 : ℚ)), (2, 1)]).1) ∧
    ((np_min_axis0 [((0 : ℚ), (0 : ℚ)), (2, 1)]).2 <
        (np_max_axis0 [((0 : ℚ), (0 : ℚ)), (2, 1)]).2) ∧
    (∀ p ∈ plot_digits_embedding_X [((0 : ℚ), (0 : ℚ)), (2, 1)],
        0 ≤ p.1 ∧ p.1 ≤ 1 ∧ 0 ≤ p.2 ∧ p.2 ≤ 1) ∧
    ((np_min_axis0 [((1 : ℚ), (5 : ℚ)), (1, 7)]).1 =
        (np_max_axis0 [((1 : ℚ), (5 : ℚ)), (1, 7)]).1) ∧
    (np_max_axis0 [((1 : ℚ), (5 : ℚ)), (1, 7)]).1 -
        (np_min_axis0 [((1 : ℚ), (5 : ℚ)), (1, 7)]).1 = 0 := by
  have hmin1 : (np_min_axis0 [((0 : ℚ), (0 : ℚ)), (2, 1)]) = (0, 0) := by
    show ((min (0 : ℚ) 2, min (0 : ℚ) 1) : ℚ × ℚ) = (0, 0)
    norm_num
  have hmax1 : (np_max_axis0 [((0 : ℚ), (0 : ℚ)), (2, 1)]) = (2, 1) := by
    show ((max (0 : ℚ) 2, max (0 : ℚ) 1) : ℚ × ℚ) = (2, 1)
    norm_num
  have hmin2 : (np_min_axis0 [((1 : ℚ), (5 : ℚ)), (1, 7)]) = (1, 5) := by
    show ((min (1 : ℚ) 1, min (5 : ℚ) 7) : ℚ × ℚ) = (1, 5)
    norm_num
  have hmax2 : (np_max_axis0 [((1 : ℚ), (5 : ℚ)), (1, 7)]) = (1, 7) := by
    show ((max (1 : ℚ) 1, max (5 : ℚ) 7) : ℚ × ℚ) = (1, 7)
    norm_num
  refine ⟨by rw [hmin1, hmax1]; norm_num, by rw [hmin1, hmax1]; norm_num,
    (c8_plot_digits_embedding_unit_square _).1
      (by rw [hmin1, hmax1]; norm_num) (by rw [hmin1, hmax1]; norm_num),
    by rw [hmin2, hmax2],
    (c8_plot_digits_embedding_unit_square _).2 (by rw [hmin2, hmax2])⟩

/-- C6: the `HashingTrick` notebook's executable cell transforms the fixed
two-sample input `D` through a `FeatureHasher` with `n_features=10`; the
resulting dense array has exactly 2 rows of 10 columns, whatever the hash
function used by the library. -/
theorem c6_feature_hasher_shape (hash : String → ℤ) :
    (feature_hasher_transform 10 hash hashing_D).length = 2 ∧
    (feature_hasher_transform 10 hash hashing_D).map List.length = [10, 10] := by
  have hfold : ∀ (sample : List (String × ℚ)) (row : List ℚ),
      (sample.foldl (feature_hasher_step 10 hash) row).length = row.length := by
    intro sample
    induction sample with
    | nil => intro row; rfl
    | cons kv t ih =>
      intro row
      rw [List.foldl_cons, ih, feature_hasher_step, List.length_set]
  constructor
  · rfl
  · simp only [feature_hasher_transform, hashing_D, List.map_cons, List.map_nil]
    rw [hfold, hfold, List.length_replicate]

/-- C1: each hard computation of the notebooks (random projection, PCA, MDS,
t-SNE, UMAP, keras network training, feature hashing) is bound to the verbatim
output of the corresponding third-party library call on the cell's inputs,
whatever those library functions compute: the repository's cells add no
computation of their own around them. -/
theorem c1_hard_computations_delegated {UMapModel SparseM History : Type}
    (lib : MLLib UMapModel SparseM History) (X X_vis X_train X_valid : Mat)
    (y_train y_valid : List Nat) :
    cell_X_projected lib X_vis = lib.srp_fit_transform X_vis ∧
    cell_X_pca lib X_vis = lib.pca_fit_transform X_vis ∧
    cell_X_mds lib X = lib.mds_fit_transform (X.take 3000) ∧
    cell_X_tsne lib X_vis = lib.tsne_fit_transform X_vis ∧
    cell_X_umap lib X_vis = lib.umap_transform (lib.umap_fit X_vis) X_vis ∧
    cell_history lib X_train y_train X_valid y_valid =
      lib.model_fc_fit X_train y_train 20 X_valid y_valid ∧
    cell_f_toarray lib = lib.toarray (lib.hasher_transform hashing_D) :=
  ⟨rfl, rfl, rfl, rfl, rfl, rfl, rfl⟩

/-- C3 counterexample: the claim that no cell writes a file and no cell's
behaviour depends on a repository-persisted file is false at the concrete
file-system states: the CNN training cell writes `convnet.h5` into an empty
file system, and the setup cell behaves differently when `convnet.h5` exists. -/
theorem c3_counterexample :
    convnet_train_cell ⟨[]⟩ false ≠ (⟨[]⟩ : FS) ∧
    convnet_setup_cell ⟨[convmodel_file]⟩ ≠ convnet_setup_cell ⟨[]⟩ := by decide

/-- C3 amended: the notebook persists exactly two files of its own —
`my_mnist_model.png` (written by `keras.utils.plot_model`) and `convnet.h5`
(written by `model.save` in the CNN section) — and the CNN section's behaviour
depends on whether `convnet.h5` was previously persisted: if present, the
saved model is loaded and training is skipped; if absent, a fresh model is
built, trained, and saved. Apart from these, the interface is the interactive
notebook cell sequence. -/
theorem c3_only_convnet_and_plot_model_touch_files (fs : FS) :
    (plot_model_cell fs).files = "my_mnist_model.png" :: fs.files ∧
    (if convmodel_file ∈ fs.files then
        run_convnet_section fs = (ConvModel.loadedFromFile, true, fs)
      else
        run_convnet_section fs = (ConvModel.freshlyBuilt, false, ⟨convmodel_file :: fs.files⟩)) := by
  refine ⟨rfl, ?_⟩
  by_cases h : convmodel_file ∈ fs.files
  · rw [if_pos h]
    rw [run_convnet_section, convnet_setup_cell, if_pos h]
    show (ConvModel.loadedFromFile, true, convnet_train_cell fs true) = _
    rw [convnet_train_cell]
    rfl
  · rw [if_neg h]
    rw [run_convnet_section, convnet_setup_cell, if_neg h]
    show (ConvModel.freshlyBuilt, false, convnet_train_cell fs false) = _
    rw [convnet_train_cell]
    rfl

/-- C4 counterexample: not every exception propagates out of its cell
unchanged — the `%tensorflow_version` cell catches and suppresses a concrete
exception raised by the magic. -/
theorem c4_counterexample :
    tf_version_cell (Except.error (PyError.otherError "no such magic")) = Except.ok () ∧
    tf_version_cell (Except.error (PyError.otherError "no such magic")) ≠
      Except.error (PyError.otherError "no such magic") := by
  exact ⟨rfl, by decide⟩

/-- C4 amended: all repository code propagates exceptions unchanged except
the `%tensorflow_version` cell, whose `try/except Exception: pass` suppresses
every exception of the magic; by contrast, the bokeh data-construction lists
re-raise any exception of `im_reshape_bw` / `im_colorize_rgba` unchanged. -/
theorem c4_only_tf_version_cell_suppresses :
    (∀ e : PyError, tf_version_cell (Except.error e) = Except.ok ()) ∧
    (∀ (x : NDArr ℚ) (xs : List (NDArr ℚ)) (e : PyError),
      im_reshape_bw x = Except.error e →
        interactive_images (x :: xs) = Except.error e) ∧
    (∀ (tab10 : Nat → List ℚ) (x : NDArr ℚ) (yl : Nat) (xs : List (NDArr ℚ))
        (ys : List Nat) (e : PyError),
      im_colorize_rgba tab10 x yl = Except.error e →
        interactive_images_rgba tab10 (x :: xs) (yl :: ys) = Except.error e) := by
  refine ⟨fun e => rfl, fun x xs e h => ?_, fun tab10 x yl xs ys e h => ?_⟩
  · rw [interactive_images, List.mapM_cons, h]
    rfl
  · rw [interactive_images_rgba, List.zip_cons_cons, List.mapM_cons]
    show (im_colorize_rgba tab10 x yl).bind _ = Except.error e
    rw [h]
    rfl

theorem c4_only_tf_version_cell_suppresses_witness :
    tf_version_cell (Except.error (PyError.valueError "boom")) = Except.ok () ∧
    im_reshape_bw ⟨[3], [0, 0, 0]⟩ = Except.error (PyError.valueError "cannot reshape array") ∧
    interactive_images [⟨[3], [0, 0, 0]⟩] =
      Except.error (PyError.valueError "cannot reshape array") ∧
    im_colorize_rgba tab10c ⟨[4], [1, 2, 3, 4]⟩ 0 =
      Except.error (PyError.valueError "cannot reshape array") ∧
    interactive_images_rgba tab10c [⟨[4], [1, 2, 3, 4]⟩] [0] =
      Except.error (PyError.valueError "cannot reshape array") := by
  have h1 : im_reshape_bw ⟨[3], [0, 0, 0]⟩ =
      Except.error (PyError.valueError "cannot reshape array") := rfl
  have h2 : im_colorize_rgba tab10c ⟨[4], [1, 2, 3, 4]⟩ 0 =
      Except.error (PyError.valueError "cannot reshape array") := rfl
  exact ⟨c4_only_tf_version_cell_suppresses.1 _, h1,
    c4_only_tf_version_cell_suppresses.2.1 _ [] _ h1, h2,
    c4_only_tf_version_cell_suppresses.2.2 tab10c _ 0 [] [] _ h2⟩

/-- C9 counterexample: `im_colorize_rgba` raises `ValueError` on an input
whose `ndim` *is* 1 — the 1-dimensional array `[1, 2, 3, 4]` of length 4 hits
the `reshape(28,28,4)` failure — so "`ValueError` if and only if ndim is not
1 or 2" is false. -/
theorem c9_counterexample :
    (⟨[4], [1, 2, 3, 4]⟩ : NDArr ℚ).ndim = 1 ∧
    im_colorize_rgba tab10c ⟨[4], [1, 2, 3, 4]⟩ 0 =
      Except.error (PyError.valueError "cannot reshape array") :=
  ⟨rfl, rfl⟩

/-- C9 amended: `im_colorize_rgba` raises `ValueError` when its argument's
`ndim` is neither 1 nor 2 (the explicit raise), and also when a 1-dimensional
argument does not have exactly 784 entries (the `reshape(28,28,4)` fails); on
every 784-element 1-dimensional input it returns without raising an array of
784 32-bit values — of shape 28×28×1, since `np.squeeze` runs before the
`uint32` view and therefore the view leaves a trailing axis of extent 1. -/
theorem c9_im_colorize_rgba_value_errors (tab10 : Nat → List ℚ) (label : Nat)
    (arr : NDArr ℚ) (hc : (tab10 label).length = 4)
    (hwf : arr.data.length = arr.shape.prod) :
    (arr.ndim ≠ 1 → arr.ndim ≠ 2 →
      im_colorize_rgba tab10 arr label =
        Except.error (PyError.valueError "Image format not handled (yet).")) ∧
    (∀ n : Nat, arr.shape = [n] → n ≠ 784 →
      im_colorize_rgba tab10 arr label =
        Except.error (PyError.valueError "cannot reshape array")) ∧
    (arr.shape = [784] →
      ∃ out : NDArr ℤ, im_colorize_rgba tab10 arr label = Except.ok out ∧
        out.shape = [28, 28, 1] ∧ out.data.length = 784 ∧
        ∀ v ∈ out.data, 0 ≤ v ∧ v < 4294967296) := by
  have hbind : im_colorize_rgba tab10 arr label =
      (if arr.ndim = 1 then
        (np_reshape (expandColor (tab10 label) arr) [28, 28, 4]).map (np_scale 255)
      else if arr.ndim = 2 then
        Except.ok (np_scale 255 (expandColor (tab10 label) arr))
      else
        Except.error (PyError.valueError "Image format not handled (yet).")).bind
      (fun out_img => np_view_u32 (np_squeeze (np_astype_u8 (np_flipud out_img)))) := rfl
  refine ⟨fun h1 h2 => ?_, fun n hn hne => ?_, fun h784 => ?_⟩
  · rw [hbind, if_neg h1, if_neg h2]
    rfl
  · have hndim : arr.ndim = 1 := by rw [NDArr.ndim, hn]; rfl
    have hdl : arr.data.length = n := by rw [hwf, hn]; exact Nat.mul_one n
    have hexp : (expandColor (tab10 label) arr).data.length = n * 4 := by
      rw [expandColor_length _ _ hc, hdl]
    have hre : np_reshape (expandColor (tab10 label) arr) [28, 28, 4] =
        Except.error (PyError.valueError "cannot reshape array") := by
      rw [np_reshape, if_neg]
      rw [hexp]
      show ¬(n * 4 = 3136)
      omega
    rw [hbind, if_pos hndim, hre]
    rfl
  · exact im_colorize_rgba_1d_784 tab10 label arr hc h784
      (by rw [hwf, h784]; exact Nat.mul_one 784)

theorem c9_im_colorize_rgba_value_errors_witness :
    ((tab10c 0).length = 4) ∧
    ((⟨[2, 2, 2], List.replicate 8 0⟩ : NDArr ℚ).ndim ≠ 1) ∧
    ((⟨[2, 2, 2], List.replicate 8 0⟩ : NDArr ℚ).ndim ≠ 2) ∧
    im_colorize_rgba tab10c ⟨[2, 2, 2], List.replicate 8 0⟩ 0 =
      Except.error (PyError.valueError "Image format not handled (yet).") ∧
    im_colorize_rgba tab10c ⟨[4], [1, 2, 3, 4]⟩ 0 =
      Except.error (PyError.valueError "cannot reshape array") ∧
    ∃ out : NDArr ℤ,
      im_colorize_rgba tab10c ⟨[784], List.replicate 784 1⟩ 0 = Except.ok out ∧
        out.shape = [28, 28, 1] ∧ out.data.length = 784 ∧
        ∀ v ∈ out.data, 0 ≤ v ∧ v < 4294967296 := by
  have hwf3 : (⟨[2, 2, 2], List.replicate 8 0⟩ : NDArr ℚ).data.length =
      (⟨[2, 2, 2], List.replicate 8 0⟩ : NDArr ℚ).shape.prod := by
    rw [List.length_replicate]
    rfl
  have hwf784 : (⟨[784], List.replicate 784 1⟩ : NDArr ℚ).data.length =
      (⟨[784], List.replicate 784 1⟩ : NDArr ℚ).shape.prod := by
    rw [List.length_replicate]
    rfl
  refine ⟨rfl, by decide, by decide, ?_, ?_, ?_⟩
  · exact (c9_im_colorize_rgba_value_errors tab10c 0 _ rfl hwf3).1 (by decide) (by decide)
  · exact (c9_im_colorize_rgba_value_errors tab10c 0 ⟨[4], [1, 2, 3, 4]⟩ rfl rfl).2.1
      4 rfl (by decide)
  · exact (c9_im_colorize_rgba_value_errors tab10c 0 _ rfl hwf784).2.2 rfl

end Tutorials
